import Mathlib

/-!
# Verification of the NOTAM monitor (parser, classifier, scorer, store, fetcher, digester)

Shallow embedding of the Python sources of the `notams` repository:

* `src/models/notam.py` — the `Notam` dataclass, the two Q-code lookup tables,
  the classifier properties (`is_closure`, `is_drone_related`, `is_restriction`,
  `is_trigger_notam`) and the priority scorer `_calculate_priority_score`;
* `src/parser.py` — `NotamParser.parse_notam` and its helpers;
* `src/database.py` — `NotamDatabase.upsert_notam` over an explicit store state;
* `src/notam_client.py` — the deduplicating fetch loops of `FAANotamClient`
  and `FreeTextNotamClient`;
* `src/alert_digester.py` — `AlertDigester._send_digest` / `send_immediate`;
* `src/config.py` — the configuration defaults used by the above.

Python strings are modelled as `List Char` (scanning code) or `String`
(record fields); machine integers as `Int`/`Nat` (no overflow is reachable in
the scored quantities); `datetime` as a validated record; SQL rows as a list
of records with an explicit uniqueness hypothesis standing in for the
`UNIQUE` constraint on `notam_id`.  All definitions are executable.
-/

namespace NotamSpec

/-! ## Python-style string primitives (ASCII inputs) -/

/-- `text_lower = text.lower()` on a character list (ASCII-faithful). -/
def lowerL (s : List Char) : List Char := s.map Char.toLower

/-- `text.upper()` on a character list (ASCII-faithful). -/
def upperL (s : List Char) : List Char := s.map Char.toUpper

/-- Python `str.strip()`: drop leading and trailing whitespace. -/
def pyStrip (s : List Char) : List Char :=
  ((s.dropWhile Char.isWhitespace).reverse.dropWhile Char.isWhitespace).reverse

/-- Drop only trailing whitespace (used when translating `re.sub(r"\s*...$", ...)`). -/
def pyStripRight (s : List Char) : List Char :=
  (s.reverse.dropWhile Char.isWhitespace).reverse

/-- `pat` occurs at the very start of `s` (a prefix test, written out so the
kernel can evaluate it). -/
def beginsWith : List Char → List Char → Bool
  | [], _ => true
  | _ :: _, [] => false
  | p :: ps, c :: cs => p == c && beginsWith ps cs

/-- Python `pat in s` (substring containment) for a fixed pattern. -/
def containsSub (pat : List Char) : List Char → Bool
  | [] => beginsWith pat []
  | c :: rest => beginsWith pat (c :: rest) || containsSub pat rest

/-- Python slicing `s[a:b]` on a `String` (via its character list). -/
def pySliceStr (s : String) (a b : Nat) : String :=
  String.mk ((s.data.drop a).take (b - a))

/-- `str.isdigit()`: non-empty and all characters decimal digits. -/
def pyIsDigit (s : List Char) : Bool := !s.isEmpty && s.all Char.isDigit

/-- Decimal value of a digit list. -/
def digitsToNat (s : List Char) : Nat := s.foldl (fun a c => a * 10 + (c.toNat - 48)) 0

/-- Python `int(s)`: optional surrounding whitespace, optional sign, then a
non-empty digit run; anything else raises `ValueError` (modelled as `none`). -/
def pyInt (s : List Char) : Option Int :=
  let t := pyStrip s
  match t with
  | '-' :: ds => if pyIsDigit ds then some (-(digitsToNat ds : Int)) else none
  | '+' :: ds => if pyIsDigit ds then some (digitsToNat ds : Int) else none
  | ds => if pyIsDigit ds then some (digitsToNat ds : Int) else none

/-- Python `str.split(sep)` for a one-character separator: split at every
occurrence, keeping empty pieces (`"".split(sep) == [""]`). -/
def splitOnCharL (sep : Char) : List Char → List (List Char)
  | [] => [[]]
  | c :: rest =>
    let r := splitOnCharL sep rest
    if c == sep then [] :: r
    else
      match r with
      | h :: t => (c :: h) :: t
      | [] => [[c]]

/-- Python `str.split()` with no argument: split on whitespace runs, no empties. -/
def splitWsRuns (s : List Char) : List (List Char) :=
  go s []
where
  /-- accumulate the current word in `cur` (reversed). -/
  go : List Char → List Char → List (List Char)
  | [], cur => if cur.isEmpty then [] else [cur.reverse]
  | c :: rest, cur =>
    if c.isWhitespace then
      if cur.isEmpty then go rest [] else cur.reverse :: go rest []
    else go rest (c :: cur)

/-! ## Configuration (`src/config.py`) -/

/-- `Config` snapshot: only the attributes the verified components read.
Defaults mirror the `os.getenv(..., default)` fallbacks in `src/config.py`. -/
structure Config where
  DRONE_KEYWORDS : List String
  CLOSURE_SCORE : Int
  DRONE_SCORE : Int
  RESTRICTION_SCORE : Int
  DRONE_WEIGHT : Nat
  NORMAL_WEIGHT : Nat
  NTFY_URL : String
  NTFY_MIN_SCORE : Int
  NTFY_MAX_DIGEST_ITEMS : Nat
  AIRPORTS : List String
  SEARCH_TERMS : List String
  deriving Repr

/-- `DRONE_KEYWORDS = [k.strip().lower() for k in 'drone,UAS,unmanned,RPAS'.split(',') if k.strip()]`. -/
def defaultDroneKeywords : List String :=
  (((splitOnCharL ',' "drone,UAS,unmanned,RPAS".data).filter
    (fun k => !(pyStrip k).isEmpty)).map
    (fun k => String.mk (lowerL (pyStrip k))))

/-- Configuration with every environment variable unset (the documented defaults). -/
def defaultConfig : Config :=
  { DRONE_KEYWORDS := defaultDroneKeywords
    CLOSURE_SCORE := 50
    DRONE_SCORE := 30
    RESTRICTION_SCORE := 20
    DRONE_WEIGHT := 10
    NORMAL_WEIGHT := 1
    NTFY_URL := ""
    NTFY_MIN_SCORE := 80
    NTFY_MAX_DIGEST_ITEMS := 10
    AIRPORTS := []
    SEARCH_TERMS := [] }

/-! ## The `Notam` domain model (`src/models/notam.py`) -/

/-- `NotamType` enum: NOTAMN / NOTAMR / NOTAMC. -/
inductive NotamType where
  | NEW
  | REPLACE
  | CANCEL
  deriving DecidableEq, Repr

/-- Python `datetime` value as produced by `datetime(year, month, day, hour, minute)`. -/
structure PDateTime where
  year : Nat
  month : Nat
  day : Nat
  hour : Nat
  minute : Nat
  deriving DecidableEq, Repr

/-- Gregorian leap-year rule (as implemented by `datetime`). -/
def isLeapYear (y : Nat) : Bool := (y % 4 == 0 && y % 100 != 0) || y % 400 == 0

/-- Days in a month, as validated by the `datetime` constructor. -/
def daysInMonth (y m : Nat) : Nat :=
  if m == 2 then (if isLeapYear y then 29 else 28)
  else if m == 4 || m == 6 || m == 9 || m == 11 then 30
  else 31

/-- `datetime(y, m, d, hh, mm)`: raises `ValueError` (here `none`) outside the
calendar ranges, otherwise the value. -/
def mkDatetime (y m d hh mm : Nat) : Option PDateTime :=
  if 1 ≤ y && y ≤ 9999 && 1 ≤ m && m ≤ 12 && 1 ≤ d && d ≤ daysInMonth y m
     && hh ≤ 23 && mm ≤ 59
  then some ⟨y, m, d, hh, mm⟩ else none

/-- The `Notam` dataclass fields (identity, Q-line, lettered fields, source
metadata).  `priority_score` is not a stored field here: `__post_init__` and
`from_api_dict` materialise it from `_calculate_priority_score`, modelled below
as the function `calculatePriorityScore`.  `latitude`/`longitude` are exact
rationals standing in for the Python floats (no claim depends on rounding). -/
structure Notam where
  notam_id : String
  series : String
  number : Option Int := none
  year : Option Int := none
  notam_type : NotamType
  replaces_notam_id : Option String := none
  cancels_notam_id : Option String := none
  fir : Option String := none
  q_code : Option String := none
  q_code_subject : Option String := none
  q_code_condition : Option String := none
  traffic : Option String := none
  purpose : Option String := none
  scope : Option String := none
  lower_limit : Option Int := none
  upper_limit : Option Int := none
  coordinates : Option String := none
  latitude : Option Rat := none
  longitude : Option Rat := none
  radius_nm : Option Int := none
  location : Option String := none
  valid_from : Option PDateTime := none
  valid_to : Option PDateTime := none
  is_permanent : Bool := false
  schedule : Option String := none
  body : Option String := none
  lower_limit_text : Option String := none
  upper_limit_text : Option String := none
  airport_code : Option String := none
  airport_name : Option String := none
  issue_date : Option PDateTime := none
  source : Option String := none
  source_type : Option String := none
  raw_icao_message : Option String := none
  transaction_id : Option Int := none
  has_history : Bool := false
  search_term : Option String := none
  deriving DecidableEq, Repr

/-! ### Classifier properties -/

/-- Closure condition codes checked by `Notam.is_closure`. -/
def closureConditionCodes : List String := ["LC", "LI", "LN", "LV"]

/-- Body keywords checked by `Notam.is_closure` (and by
`NotamParser._is_closure_notam`, which uses the identical list). -/
def closureKeywords : List String :=
  ["closed", "clsd", "closure", "not avbl",
   "unavailable", "suspended", "ad clsd",
   "airport closed", "rwy closed", "runway closed"]

/-- `Notam.is_closure`: Q-code condition letters 4–5 in {LC, LI, LN, LV},
else a keyword scan of the lowercased body (`if not self.body: return False`). -/
def is_closure (n : Notam) : Bool :=
  (match n.q_code with
   | some q =>
     !q.isEmpty && 5 ≤ q.length && closureConditionCodes.contains (pySliceStr q 3 5)
   | none => false)
  ||
  (match n.body with
   | none => false
   | some b =>
     !b.isEmpty && closureKeywords.any (fun kw => containsSub kw.data (lowerL b.data)))

/-! #### Word-boundary search (`re.search(r'\b' + re.escape(kw) + r'\b', text)`)

`\b` matches where the word-ness of the two surrounding characters differs
(positions outside the string count as non-word).  The keyword is a literal
(it is `re.escape`d), so the search below scans every position for a literal
match with boundary checks on both sides. -/

/-- Word character for `\b`: `[A-Za-z0-9_]` (ASCII inputs). -/
def isWordChar (c : Char) : Bool := c.isAlphanum || c == '_'

/-- Word-ness of an optional character; out-of-string positions are non-word. -/
def wordness : Option Char → Bool
  | none => false
  | some c => isWordChar c

/-- The pattern `\b kw \b` matches at the head of `s`, with `prev` the
character just before this position (`none` at the start of the string). -/
def wordMatchHere (kw : List Char) (prev : Option Char) (s : List Char) : Bool :=
  beginsWith kw s
  && (wordness prev != wordness kw.head?)
  && (wordness kw.getLast? != wordness (s.drop kw.length).head?)

/-- `re.search` for `\b kw \b`: scan positions left to right.  (A match of a
non-empty `kw` cannot begin at the end of the string; configuration keywords
are never empty.) -/
def searchWord (kw : List Char) : Option Char → List Char → Bool
  | _, [] => false
  | prev, c :: rest => wordMatchHere kw prev (c :: rest) || searchWord kw (some c) rest

/-- `Notam.is_drone_related`: word-boundary search of each configured keyword
(lowered once more, as in the source) in the lowercased body. -/
def is_drone_related (cfg : Config) (n : Notam) : Bool :=
  match n.body with
  | none => false
  | some b =>
    !b.isEmpty &&
    cfg.DRONE_KEYWORDS.any (fun kw => searchWord (lowerL kw.data) none (lowerL b.data))

/-- Restriction subject codes checked by `Notam.is_restriction`. -/
def restrictionSubjectCodes : List String := ["RD", "RP", "RR", "RT", "RA", "WU"]

/-- Body keywords checked by `Notam.is_restriction`. -/
def restrictionKeywords : List String :=
  ["restricted area", "prohibited area", "danger area",
   "temporary restricted", "activated"]

/-- `Notam.is_restriction`: Q-code subject letters 2–3 first, then keyword
containment on the body when the body is truthy, else `False`. -/
def is_restriction (n : Notam) : Bool :=
  if (match n.q_code with
      | some q =>
        !q.isEmpty && 3 ≤ q.length && restrictionSubjectCodes.contains (pySliceStr q 1 3)
      | none => false)
  then true
  else
    match n.body with
    | some b =>
      if !b.isEmpty then
        restrictionKeywords.any (fun kw => containsSub kw.data (lowerL b.data))
      else false
    | none => false

/-- `Notam.is_trigger_notam`: `self.body.strip().upper().startswith('TRIGGER NOTAM')`. -/
def is_trigger_notam (n : Notam) : Bool :=
  match n.body with
  | none => false
  | some b => !b.isEmpty && beginsWith "TRIGGER NOTAM".data (upperL (pyStrip b.data))

/-- `self.scope and 'A' in self.scope`. -/
def scopeHasA (n : Notam) : Bool :=
  match n.scope with
  | some s => !s.isEmpty && s.data.contains 'A'
  | none => false

/-- `Notam._calculate_priority_score`: the sequential `score +=` rubric,
clamped by `max(0, score)` at the end. -/
def calculatePriorityScore (cfg : Config) (n : Notam) : Int :=
  let score : Int := 0
  let score := if is_closure n then score + cfg.CLOSURE_SCORE else score
  let score := if is_drone_related cfg n then score + cfg.DRONE_SCORE else score
  let score :=
    if n.notam_type = NotamType.NEW then score + 10
    else if n.notam_type = NotamType.REPLACE then score + 5
    else score
  let score := if scopeHasA n then score + 10 else score
  let score := if n.is_permanent then score + 5 else score
  let score := if is_trigger_notam n then score - 10 else score
  let score := if is_restriction n && !is_closure n then score + cfg.RESTRICTION_SCORE else score
  max 0 score

end NotamSpec
namespace NotamSpec

/-! ## Q-code lookup tables (`src/models/notam.py`)

Two SEPARATE tables, transcribed verbatim and in order from the source.
`Q_CODE_SUBJECTS` decodes letters 2–3 of the Q-code, `Q_CODE_CONDITIONS`
decodes letters 4–5; they share keys with different meanings. -/

/-- Subject codes: 2nd + 3rd letters of the Q-code. -/
def Q_CODE_SUBJECTS : List (String × String) :=
[
  ("LA", "Approach lighting system"),
  ("LB", "Aerodrome beacon"),
  ("LC", "Runway centre line lights"),
  ("LD", "Landing direction indicator lights"),
  ("LE", "Runway edge lights"),
  ("LF", "Sequenced flashing lights"),
  ("LH", "High intensity runway lights"),
  ("LI", "Runway end identifier lights"),
  ("LJ", "Runway alignment indicator lights"),
  ("LK", "Category II components of approach lighting system"),
  ("LL", "Low intensity runway lights"),
  ("LM", "Medium intensity runway lights"),
  ("LP", "Precision approach path indicator"),
  ("LR", "All landing area lighting facilities"),
  ("LS", "Stopway lights"),
  ("LT", "Threshold lights"),
  ("LV", "Visual approach slope indicator system"),
  ("LW", "Heliport lighting"),
  ("LX", "Taxiway centre line lights"),
  ("LY", "Taxiway edge lights"),
  ("LZ", "Runway touchdown zone lights"),
  ("MA", "Movement area"),
  ("MB", "Bearing strength"),
  ("MC", "Clearway"),
  ("MD", "Declared distances"),
  ("MG", "Taxiing guidance system"),
  ("MH", "Runway arresting gear"),
  ("MK", "Parking area"),
  ("MM", "Daylight markings"),
  ("MN", "Apron"),
  ("MP", "Aircraft stands"),
  ("MR", "Runway"),
  ("MS", "Stopway"),
  ("MT", "Threshold"),
  ("MU", "Runway turning bay"),
  ("MW", "Strip"),
  ("MX", "Taxiway(s)"),
  ("FA", "Aerodrome"),
  ("FB", "Braking action measurement equipment"),
  ("FC", "Ceiling measurement equipment"),
  ("FD", "Docking system"),
  ("FF", "Fire fighting and rescue"),
  ("FG", "Ground movement control"),
  ("FH", "Helicopter alighting area/platform"),
  ("FL", "Landing direction indicator"),
  ("FM", "Meteorological service"),
  ("FO", "Fog dispersal system"),
  ("FP", "Heliport"),
  ("FS", "Snow removal equipment"),
  ("FT", "Transmissometer"),
  ("FU", "Fuel availability"),
  ("FW", "Wind direction indicator"),
  ("FZ", "Customs"),
  ("CA", "Air/ground facility"),
  ("CE", "En route surveillance radar"),
  ("CG", "Ground controlled approach system"),
  ("CL", "Selective calling system (SELCAL)"),
  ("CM", "Surface movement radar"),
  ("CP", "Precision approach radar"),
  ("CR", "Surveillance radar element of precision approach system"),
  ("CS", "Secondary surveillance radar (SSR)"),
  ("CT", "Terminal area surveillance radar"),
  ("ID", "DME associated with ILS"),
  ("IG", "ILS glide path"),
  ("II", "ILS inner marker"),
  ("IL", "ILS localiser"),
  ("IM", "ILS middle marker"),
  ("IO", "ILS outer marker"),
  ("IS", "ILS Category I"),
  ("IT", "ILS Category II"),
  ("IU", "ILS Category III"),
  ("IW", "Microwave landing system (MLS)"),
  ("IX", "ILS localiser outer"),
  ("IY", "ILS localiser middle"),
  ("NA", "All radio navigation facilities"),
  ("NB", "Non-directional radio beacon (NDB)"),
  ("NC", "DECCA"),
  ("ND", "Distance measuring equipment (DME)"),
  ("NF", "Fan marker"),
  ("NL", "Locator"),
  ("NM", "VOR/DME"),
  ("NN", "TACAN"),
  ("NO", "OMEGA"),
  ("NT", "VORTAC"),
  ("NV", "VOR"),
  ("NX", "Direction finding station"),
  ("AA", "Minimum altitude"),
  ("AC", "Class B, C, D or E surface area"),
  ("AD", "Air defence identification zone (ADIZ)"),
  ("AE", "Control area (CTA)"),
  ("AF", "Flight information region (FIR)"),
  ("AG", "General aviation area"),
  ("AH", "Upper control area (UTA)"),
  ("AI", "Initial approach fix"),
  ("AK", "Upper flight information region (UIR)"),
  ("AL", "Minimum usable flight level"),
  ("AM", "Military operating area (MOA)"),
  ("AN", "Terminal control area (TCA)"),
  ("AO", "Control zone (CTR)"),
  ("AP", "Reporting point"),
  ("AR", "RNAV route"),
  ("AT", "Terminal area"),
  ("AU", "Upper advisory area"),
  ("AV", "Upper advisory route"),
  ("AX", "Intermediate approach fix"),
  ("AZ", "Aerodrome traffic zone (ATZ)"),
  ("PA", "Standard instrument arrival (STAR)"),
  ("PD", "Standard instrument departure (SID)"),
  ("PF", "Flow control procedure"),
  ("PH", "Holding procedure"),
  ("PI", "Instrument approach procedure"),
  ("PL", "Obstacle clearance limit"),
  ("PM", "Aerodrome operating minima"),
  ("PO", "Obstacle clearance altitude"),
  ("PP", "Obstacle clearance height"),
  ("PR", "Radio failure procedure"),
  ("PT", "Transition altitude"),
  ("PU", "Missed approach procedure"),
  ("PX", "Minimum holding altitude"),
  ("PZ", "ADIZ procedure"),
  ("RA", "Airspace reservation"),
  ("RD", "Danger area"),
  ("RO", "Overflying"),
  ("RP", "Prohibited area"),
  ("RR", "Restricted area"),
  ("RT", "Temporary restricted area"),
  ("WA", "Air display"),
  ("WB", "Aerobatics"),
  ("WC", "Captive balloon or kite"),
  ("WD", "Demolition of explosives"),
  ("WE", "Exercises"),
  ("WF", "Air refuelling"),
  ("WG", "Glider flying"),
  ("WJ", "Banner/target towing"),
  ("WL", "Ascent of free balloon"),
  ("WM", "Missile, gun or rocket firing"),
  ("WP", "Parachute jumping exercise"),
  ("WS", "Burning or blowing gas"),
  ("WT", "Mass movement of aircraft"),
  ("WU", "Unmanned aircraft"),
  ("WV", "Formation flight"),
  ("WZ", "Model flying"),
  ("OA", "Aeronautical information service"),
  ("OB", "Obstacle"),
  ("OE", "Aircraft entry requirements"),
  ("OL", "Obstacle lights"),
  ("OR", "Rescue coordination centre"),
  ("XX", "Plain language") ]

/-- Condition codes: 4th + 5th letters of the Q-code. -/
def Q_CODE_CONDITIONS : List (String × String) :=
[
  ("AC", "Withdrawn for maintenance"),
  ("AD", "Available for daylight operation"),
  ("AF", "Flight checked and found reliable"),
  ("AG", "Operating but ground checked only, awaiting flight check"),
  ("AH", "Hours of service are now"),
  ("AK", "Resumed normal operations"),
  ("AM", "Military operations only"),
  ("AN", "Available for night operation"),
  ("AO", "Operational"),
  ("AP", "Available, prior permission required"),
  ("AR", "Available on request"),
  ("AS", "Unserviceable"),
  ("AU", "Not available"),
  ("AW", "Completely withdrawn"),
  ("AX", "Previously promulgated shutdown cancelled"),
  ("CA", "Activated"),
  ("CC", "Completed"),
  ("CD", "Deactivated"),
  ("CE", "Erected"),
  ("CF", "Operating frequency changed to"),
  ("CG", "Downgraded to"),
  ("CH", "Changed"),
  ("CI", "Identification or radio call sign changed to"),
  ("CL", "Realigned"),
  ("CM", "Displaced"),
  ("CO", "Operating"),
  ("CP", "Operating on reduced power"),
  ("CR", "Temporarily replaced by"),
  ("CS", "Installed"),
  ("HA", "Braking action is"),
  ("HB", "Braking coefficient is"),
  ("HC", "Covered by compacted snow"),
  ("HD", "Covered by dry snow"),
  ("HE", "Covered by water"),
  ("HF", "Totally free of snow and ice"),
  ("HG", "Grass cutting in progress"),
  ("HH", "Hazard due to"),
  ("HI", "Covered by ice"),
  ("HJ", "Launch planned"),
  ("HK", "Migration in progress"),
  ("HL", "Snow clearance completed"),
  ("HM", "Marked by"),
  ("HN", "Covered by wet snow or slush"),
  ("HO", "Obscured by snow"),
  ("HP", "Snow clearance in progress"),
  ("HQ", "Operation cancelled"),
  ("HR", "Standing water"),
  ("HS", "Sanding in progress"),
  ("HT", "Approach according to signal area only"),
  ("HU", "Launch in progress"),
  ("HV", "Work completed"),
  ("HW", "Work in progress"),
  ("HX", "Concentration of birds"),
  ("HY", "Snow banks exist"),
  ("HZ", "Covered by frozen ruts and ridges"),
  ("LA", "Operating on auxiliary power supply"),
  ("LB", "Reserved for aircraft based therein"),
  ("LC", "Closed"),
  ("LD", "Unsafe"),
  ("LE", "Operating without auxiliary power supply"),
  ("LF", "Interference from"),
  ("LG", "Operating without identification"),
  ("LH", "Unserviceable for aircraft heavier than"),
  ("LI", "Closed to IFR operations"),
  ("LK", "Operating as a fixed light"),
  ("LL", "Usable for length of ... and width of ..."),
  ("LN", "Closed to all night operations"),
  ("LP", "Prohibited to"),
  ("LR", "Aircraft restricted to runways and taxiways"),
  ("LS", "Subject to interruption"),
  ("LT", "Limited to"),
  ("LV", "Closed to VFR operations"),
  ("LW", "Will take place"),
  ("LX", "Operating but caution advised due to"),
  ("TT", "Trigger NOTAM"),
  ("XX", "Plain language") ]

/-- Python `dict.get(key, default)` over an association list (the dict
literals above have distinct keys, so first-match lookup is the dict). -/
def dictGet (tbl : List (String × String)) (key dflt : String) : String :=
  match tbl.find? (fun p => p.1 == key) with
  | some p => p.2
  | none => dflt

/-- The Q-code decode step of `Notam.from_api_dict` (lines 590–598): guarded by
`q_code and len(q_code) >= 5`; letters 2–3 through the subject table, letters
4–5 through the condition table, `"Unknown (XX)"` on a missing key. -/
def decodeQCode (q_code : Option String) : Option String × Option String :=
  match q_code with
  | some q =>
    if !q.isEmpty && 5 ≤ q.length then
      let subject_code := pySliceStr q 1 3
      let condition_code := pySliceStr q 3 5
      (some (dictGet Q_CODE_SUBJECTS subject_code ("Unknown (" ++ subject_code ++ ")")),
       some (dictGet Q_CODE_CONDITIONS condition_code ("Unknown (" ++ condition_code ++ ")")))
    else (none, none)
  | none => (none, none)

end NotamSpec
namespace NotamSpec

/-! ## Raw API envelope and `NotamParser` (`src/parser.py`)

`parse_notam` receives the raw FAA API dict.  Absent keys are modelled as
`none` / `false`, matching the `dict.get(key, default)` calls in the source. -/

/-- Raw envelope fields read by `NotamParser.parse_notam`. -/
structure Envelope where
  notamNumber : Option String := none
  facilityDesignator : Option String := none
  icaoId : Option String := none
  airportName : Option String := none
  icaoMessage : Option String := none
  status : Option String := none
  cancelledOrExpired : Bool := false
  issueDate : Option String := none
  startDate : Option String := none
  endDate : Option String := none
  deriving DecidableEq, Repr

/-- `NotamParser._is_closure_notam`: identical keyword list to `Notam.is_closure`. -/
def isClosureNotamText (text : List Char) : Bool :=
  closureKeywords.any (fun kw => containsSub kw.data (lowerL text))

/-- `NotamParser._is_drone_related`: the same word-boundary search as
`Notam.is_drone_related`, applied to the full text. -/
def isDroneRelatedText (cfg : Config) (text : List Char) : Bool :=
  cfg.DRONE_KEYWORDS.any (fun kw => searchWord (lowerL kw.data) none (lowerL text))

/-- Strip a trailing `EST`/`UTC`/`GMT` marker: `re.sub(r'\s*(EST|UTC|GMT)$', '', s)`
applied to an already-stripped string. -/
def stripTimezoneSuffix (s : List Char) : List Char :=
  if beginsWith "TSE".data s.reverse || beginsWith "CTU".data s.reverse
     || beginsWith "TMG".data s.reverse then
    pyStripRight (s.reverse.drop 3).reverse
  else s

/-- `NotamParser._parse_date`: FAA `MM/DD/YYYY HHMM` (or `PERM`); `none` on any
failure.  (`isinstance(date_str, str)` is always satisfied in this model.) -/
def parseFaaApiDate (dateStr : Option String) : Option PDateTime :=
  match dateStr with
  | none => none
  | some s0 =>
    if s0.isEmpty then none
    else if upperL (pyStrip s0.data) == "PERM".data then none
    else if 10 ≤ s0.length then
      let t := stripTimezoneSuffix (pyStrip s0.data)
      match splitWsRuns t with
      | date_part :: time_part :: _ =>
        (match splitOnCharL '/' date_part with
         | [moS, dyS, yrS] =>
           (do
             let mo ← pyInt moS
             let dy ← pyInt dyS
             let yr ← pyInt yrS
             let hm ←
               if 4 ≤ time_part.length then do
                 let h ← pyInt (time_part.take 2)
                 let m ← pyInt ((time_part.drop 2).take 2)
                 pure (h, m)
               else pure ((0 : Int), (0 : Int))
             if 0 ≤ yr && 0 ≤ mo && 0 ≤ dy && 0 ≤ hm.1 && 0 ≤ hm.2 then
               mkDatetime yr.toNat mo.toNat dy.toNat hm.1.toNat hm.2.toNat
             else none)
         | _ => none)
      | _ => none
    else none

/-! ### `NotamParser._extract_reason`

Three `re.IGNORECASE` patterns tried in order; a match whose stripped capture
is longer than 10 characters wins; otherwise the cleaned full text truncated
to 200 characters.  The scanners below reproduce leftmost-match semantics with
the greedy/backtracking behaviour of `\s+`/`\s*` followed by `[^.\n]+`. -/

/-- A character admitted by the capture class `[^.\n]`. -/
def notDotNl (c : Char) : Bool := c != '.' && c != '\n'

/-- Case-insensitive literal prefix test (for `re.IGNORECASE`). -/
def beginsWithCI (pat s : List Char) : Bool := beginsWith (lowerL pat) (lowerL s)

/-- Resolve `\s+([^.\n]+)` at the head of `rest`: the engine tries the longest
whitespace run first and gives characters back until the capture is non-empty.
`k` starts at the length of the maximal whitespace run. -/
def wsPlusCapture (rest : List Char) : Nat → Option (List Char)
  | 0 => none
  | k + 1 =>
    let cap := ((rest.drop (k + 1)).takeWhile notDotNl)
    if !cap.isEmpty then some cap else wsPlusCapture rest k

/-- Match `kw\s+([^.\n]+)` (case-insensitively) at the head of `s`. -/
def kwThenCapture (kw s : List Char) : Option (List Char) :=
  if beginsWithCI kw s then
    let rest := s.drop kw.length
    wsPlusCapture rest (rest.takeWhile Char.isWhitespace).length
  else none

/-- Alternation `(?:DUE TO|REASON|BECAUSE OF)\s+([^.\n]+)` at one position. -/
def pat1Here (s : List Char) : Option (List Char) :=
  match kwThenCapture "DUE TO".data s with
  | some cap => some cap
  | none =>
    match kwThenCapture "REASON".data s with
    | some cap => some cap
    | none => kwThenCapture "BECAUSE OF".data s

/-- Resolve `\s*([^.\n]{10,100})` at the head of `rest`: longest whitespace
run first (possibly zero), capture needs at least 10 characters, greedy up
to 100. -/
def wsStarCapture10 (rest : List Char) : Nat → Option (List Char)
  | 0 =>
    let cap := rest.takeWhile notDotNl
    if 10 ≤ cap.length then some (cap.take 100) else none
  | k + 1 =>
    let cap := (rest.drop (k + 1)).takeWhile notDotNl
    if 10 ≤ cap.length then some (cap.take 100) else wsStarCapture10 rest k

/-- Pattern `E\)\s*([^.\n]{10,100})` at one position. -/
def pat2Here (s : List Char) : Option (List Char) :=
  if beginsWithCI "E)".data s then
    let rest := s.drop 2
    wsStarCapture10 rest (rest.takeWhile Char.isWhitespace).length
  else none

/-- Pattern `CLSD\s+([^.\n]+)` at one position. -/
def pat3Here (s : List Char) : Option (List Char) :=
  kwThenCapture "CLSD".data s

/-- `re.search`: leftmost position where the one-position matcher succeeds. -/
def scanLeftmost (here : List Char → Option (List Char)) : List Char → Option (List Char)
  | [] => here []
  | c :: rest =>
    match here (c :: rest) with
    | some cap => some cap
    | none => scanLeftmost here rest

/-- `if reason_match: reason = group(1).strip(); if len(reason) > 10: return reason[:200]`. -/
def acceptReason (found : Option (List Char)) : Option (List Char) :=
  match found with
  | some cap =>
    let r := pyStrip cap
    if 10 < r.length then some (r.take 200) else none
  | none => none

/-- `NotamParser._extract_reason`. -/
def extractReason (text : List Char) : List Char :=
  match acceptReason (scanLeftmost pat1Here text) with
  | some r => r
  | none =>
    match acceptReason (scanLeftmost pat2Here text) with
    | some r => r
    | none =>
      match acceptReason (scanLeftmost pat3Here text) with
      | some r => r
      | none =>
        let clean := pyStrip (text.map (fun c => if c == '\n' then ' ' else c))
        clean.take 200 ++ (if 200 < clean.length then "...".data else [])

/-- The dict returned by `NotamParser.parse_notam` on success. -/
structure ParsedClosure where
  notam_id : String
  airport_code : String
  airport_name : String
  issue_date : Option PDateTime
  closure_start : Option PDateTime
  closure_end : Option PDateTime
  reason : List Char
  full_text : String
  weight : Nat
  is_drone_related : Bool
  deriving DecidableEq, Repr

/-- `NotamParser.parse_notam`: pre-filter on `cancelledOrExpired`/`status`,
then the closure filter, then the parsed record. -/
def parse_notam (cfg : Config) (env : Envelope) : Option ParsedClosure :=
  let notam_id := env.notamNumber.getD ""
  let airport_code :=
    let a := env.facilityDesignator.getD ""
    if a.isEmpty then env.icaoId.getD "" else a
  let airport_name := env.airportName.getD ""
  let full_text := env.icaoMessage.getD ""
  let status := env.status.getD ""
  if env.cancelledOrExpired || lowerL status.data == "expired".data then none
  else if !isClosureNotamText full_text.data then none
  else
    let drone := isDroneRelatedText cfg full_text.data
    some
      { notam_id := notam_id
        airport_code := airport_code
        airport_name := airport_name
        issue_date := parseFaaApiDate env.issueDate
        closure_start := parseFaaApiDate env.startDate
        closure_end := parseFaaApiDate env.endDate
        reason := extractReason full_text.data
        full_text := full_text
        weight := if drone then cfg.DRONE_WEIGHT else cfg.NORMAL_WEIGHT
        is_drone_related := drone }

end NotamSpec
namespace NotamSpec

/-! ## The store (`src/database.py`)

The `notams` table is a list of rows; `notam_id` carries a `UNIQUE`
constraint, which appears in the theorems as a `Nodup` hypothesis on the ids.
`RowData` lists exactly the columns written by both the `UPDATE` and the
`INSERT` statements of `upsert_notam` (everything except `id`, `notam_id`,
`created_at`, `updated_at`); `created_at` is populated by the column default
`CURRENT_TIMESTAMP` on insert and never written afterwards. -/

/-- `value.value` serialization of the `NotamType` enum in `Notam.to_dict`. -/
def notamTypeStr : NotamType → String
  | NotamType.NEW => "NEW"
  | NotamType.REPLACE => "REPLACE"
  | NotamType.CANCEL => "CANCEL"

/-- The data columns written by `upsert_notam` (order as in the SQL). -/
structure RowData where
  series : String
  notam_type : String
  replaces_notam_id : Option String
  cancels_notam_id : Option String
  fir : Option String
  q_code : Option String
  q_code_subject : Option String
  q_code_condition : Option String
  traffic : Option String
  purpose : Option String
  scope : Option String
  lower_limit : Option Int
  upper_limit : Option Int
  coordinates : Option String
  latitude : Option Rat
  longitude : Option Rat
  radius_nm : Option Int
  airport_code : Option String
  airport_name : Option String
  location : Option String
  valid_from : Option PDateTime
  valid_to : Option PDateTime
  is_permanent : Bool
  schedule : Option String
  body : Option String
  lower_limit_text : Option String
  upper_limit_text : Option String
  is_closure : Bool
  is_drone_related : Bool
  is_restriction : Bool
  is_trigger_notam : Bool
  search_term : Option String
  priority_score : Int
  source : Option String
  source_type : Option String
  issue_date : Option PDateTime
  raw_icao_message : Option String
  transaction_id : Option Int
  has_history : Bool
  deriving DecidableEq, Repr

/-- The bind values taken from `notam.to_dict()`: dataclass fields plus the
computed properties (`is_closure`, …, `priority_score`) added explicitly. -/
def rowDataOfNotam (cfg : Config) (n : Notam) : RowData :=
  { series := n.series
    notam_type := notamTypeStr n.notam_type
    replaces_notam_id := n.replaces_notam_id
    cancels_notam_id := n.cancels_notam_id
    fir := n.fir
    q_code := n.q_code
    q_code_subject := n.q_code_subject
    q_code_condition := n.q_code_condition
    traffic := n.traffic
    purpose := n.purpose
    scope := n.scope
    lower_limit := n.lower_limit
    upper_limit := n.upper_limit
    coordinates := n.coordinates
    latitude := n.latitude
    longitude := n.longitude
    radius_nm := n.radius_nm
    airport_code := n.airport_code
    airport_name := n.airport_name
    location := n.location
    valid_from := n.valid_from
    valid_to := n.valid_to
    is_permanent := n.is_permanent
    schedule := n.schedule
    body := n.body
    lower_limit_text := n.lower_limit_text
    upper_limit_text := n.upper_limit_text
    is_closure := is_closure n
    is_drone_related := is_drone_related cfg n
    is_restriction := is_restriction n
    is_trigger_notam := is_trigger_notam n
    search_term := n.search_term
    priority_score := calculatePriorityScore cfg n
    source := n.source
    source_type := n.source_type
    issue_date := n.issue_date
    raw_icao_message := n.raw_icao_message
    transaction_id := n.transaction_id
    has_history := n.has_history }

/-- One row of the `notams` table.  `rowid` is the `INTEGER PRIMARY KEY
AUTOINCREMENT` column `id`; timestamps are abstract instants. -/
structure DBRow where
  rowid : Nat
  notam_id : String
  data : RowData
  created_at : Nat
  updated_at : Nat
  deriving DecidableEq, Repr

/-- Store state: the `notams` rows in insertion order plus the next
autoincrement id. -/
structure DBState where
  rows : List DBRow
  next_id : Nat
  deriving DecidableEq, Repr

/-- `UPDATE notams SET notam_type = 'CANCEL', updated_at = ? WHERE notam_id = ?`
(the NOTAMC side effect), applied to one row. -/
def cancelMarkRow (cid : String) (now : Nat) (r : DBRow) : DBRow :=
  if r.notam_id == cid then
    { r with data := { r.data with notam_type := "CANCEL" }, updated_at := now }
  else r

/-- The main `UPDATE notams SET ... WHERE notam_id = ?` of the update branch,
applied to one row: every data column overwritten, `updated_at` refreshed,
`created_at` untouched. -/
def overwriteRow (cfg : Config) (n : Notam) (now : Nat) (r : DBRow) : DBRow :=
  if r.notam_id == n.notam_id then
    { r with data := rowDataOfNotam cfg n, updated_at := now }
  else r

/-- The `# Handle NOTAMC (cancel) specially` block of `upsert_notam`: the
referenced record is marked cancelled only when the incoming NOTAM is a
CANCEL, its own id already exists (`found`), and `cancels_notam_id` is set. -/
def cancelSideEffect (rows : List DBRow) (n : Notam) (now : Nat) (found : Bool) :
    List DBRow :=
  if n.notam_type = NotamType.CANCEL && found then
    match n.cancels_notam_id with
    | some cid => rows.map (cancelMarkRow cid now)
    | none => rows
  else rows

/-- `NotamDatabase.upsert_notam`.  Both `datetime.now()` calls of one
invocation (and the `CURRENT_TIMESTAMP` column default) are modelled by the
same instant `now`.  Returns `((row_id, was_inserted), new_state)`. -/
def upsert_notam (cfg : Config) (st : DBState) (n : Notam) (now : Nat) :
    (Option Nat × Bool) × DBState :=
  let existing := st.rows.find? (fun r => r.notam_id == n.notam_id)
  let rows1 := cancelSideEffect st.rows n now existing.isSome
  match existing with
  | some row =>
    ((some row.rowid, false),
     { st with rows := rows1.map (overwriteRow cfg n now) })
  | none =>
    ((some st.next_id, true),
     { rows := rows1 ++
         [{ rowid := st.next_id, notam_id := n.notam_id,
            data := rowDataOfNotam cfg n, created_at := now, updated_at := now }],
       next_id := st.next_id + 1 })

end NotamSpec
namespace NotamSpec

/-! ## Fetchers (`src/notam_client.py`)

The HTTP layer is abstracted into a response oracle: for each target the
oracle yields the records the endpoint returned (for the free-text client,
one list per pagination page, in the order the `while` loop retrieved them).
Only the accumulation/deduplication logic of the loops is modelled. -/

/-- One raw record as handled by the fetch loops.  `payload` distinguishes
otherwise-equal dicts; `search_tag` is the `_search_term` key the free-text
client writes into kept records. -/
structure RawRec where
  notamNumber : Option String := none
  payload : Nat := 0
  search_tag : Option String := none
  deriving DecidableEq, Repr

/-- One step of the shared dedup pattern:
`if notam_id and notam_id not in seen_ids: seen_ids.add(...); all_notams.append(...)`.
Returns the updated `(seen_ids, all_notams)`. -/
def dedupStep (tag : Option String) (acc : List String × List RawRec) (r : RawRec) :
    List String × List RawRec :=
  match r.notamNumber with
  | some nid =>
    if !nid.isEmpty && !acc.1.contains nid then
      (nid :: acc.1,
       acc.2 ++ [match tag with | some t => { r with search_tag := some t } | none => r])
    else acc
  | none => acc

/-- `FAANotamClient.fetch_all_notams`: one request per configured airport
(code stripped first), one `seen_ids` set across all airports. -/
def faaFetchAllNotams (airports : List String) (resp : String → List RawRec) :
    List RawRec :=
  (airports.foldl
    (fun acc code =>
      (resp (String.mk (pyStrip code.data))).foldl (dedupStep none) acc)
    ([], [])).2

/-- `FreeTextNotamClient.search_term`: pagination loop for one term; one
`seen_ids` set across the pages of this term; kept records are tagged with
the originating term. -/
def searchTermFetch (term : String) (pages : List (List RawRec)) : List RawRec :=
  (pages.foldl
    (fun acc page => page.foldl (dedupStep (some term)) acc)
    ([], [])).2

/-- `FreeTextNotamClient.fetch_all_notams`: iterates the configured search
terms (stripped; empty terms skipped) and extends the result with each
per-term list.  NOTE (faithful to the source): the method initialises a
`seen_ids` set but never consults it, so no deduplication happens across
different terms. -/
def freeTextFetchAllNotams (terms : List String) (pagesFor : String → List (List RawRec)) :
    List RawRec :=
  terms.foldl
    (fun acc t =>
      let t' := String.mk (pyStrip t.data)
      if t'.isEmpty then acc else acc ++ searchTermFetch t' (pagesFor t'))
    []

/-! ## Alert digester (`src/alert_digester.py`)

The accumulator state and the flush.  The HTTP POST is modelled by an input
`postOk` (whether `requests.post` + `raise_for_status` succeeds) and by the
emitted message (`none` = no request issued). -/

/-- Accumulator state of `AlertDigester` (the fields mutated under the lock). -/
structure DigestState where
  notams : List Notam
  stats_total : Nat
  stats_closures : Nat
  stats_drone : Nat
  stats_restrictions : Nat
  airports : List String
  deriving Repr

/-- The digest POST content, in structured form: the title count, the
snapshot statistics, and the top `NTFY_MAX_DIGEST_ITEMS` NOTAMs after the
descending stable sort on `priority_score`. -/
structure DigestMsg where
  title_total : Nat
  closures : Nat
  drone : Nat
  restrictions : Nat
  airports_affected : Nat
  top_items : List Notam
  overflow : Nat
  deriving Repr

/-- `AlertDigester.add`: no-op without a URL or below `NTFY_MIN_SCORE`;
otherwise append and update the counters and the airport set. -/
def digesterAdd (cfg : Config) (st : DigestState) (n : Notam) : DigestState :=
  if cfg.NTFY_URL.isEmpty then st
  else if calculatePriorityScore cfg n < cfg.NTFY_MIN_SCORE then st
  else
    { st with
      notams := st.notams ++ [n]
      stats_total := st.stats_total + 1
      stats_closures := st.stats_closures + (if is_closure n then 1 else 0)
      stats_drone := st.stats_drone + (if is_drone_related cfg n then 1 else 0)
      stats_restrictions := st.stats_restrictions + (if is_restriction n then 1 else 0)
      airports :=
        match n.airport_code with
        | some a =>
          if !a.isEmpty && !st.airports.contains a then st.airports ++ [a] else st.airports
        | none => st.airports }

/-- `AlertDigester._send_digest`: returns `(result, new_state, request?)`.
Empty accumulator: `return False`, nothing sent, state untouched.  Otherwise
snapshot + clear under the lock, sort the snapshot by score descending
(stable, as `list.sort`), build the digest, POST; the result is the POST
outcome (`postOk`), and the accumulator stays cleared either way. -/
def sendDigest (cfg : Config) (st : DigestState) (postOk : Bool) :
    Bool × DigestState × Option DigestMsg :=
  if st.notams.isEmpty then (false, st, none)
  else
    let snapshot := st.notams
    let cleared : DigestState :=
      { notams := [], stats_total := 0, stats_closures := 0, stats_drone := 0,
        stats_restrictions := 0, airports := [] }
    let sorted := snapshot.mergeSort
      (fun a b => calculatePriorityScore cfg b ≤ calculatePriorityScore cfg a)
    let msg : DigestMsg :=
      { title_total := st.stats_total
        closures := st.stats_closures
        drone := st.stats_drone
        restrictions := st.stats_restrictions
        airports_affected := st.airports.length
        top_items := sorted.take cfg.NTFY_MAX_DIGEST_ITEMS
        overflow := sorted.length - cfg.NTFY_MAX_DIGEST_ITEMS }
    (postOk, cleared, some msg)

/-- `AlertDigester.send_immediate`: `return self._send_digest()`. -/
def sendImmediate (cfg : Config) (st : DigestState) (postOk : Bool) :
    Bool × DigestState × Option DigestMsg :=
  sendDigest cfg st postOk

end NotamSpec
namespace NotamSpec

/-! ## Q-line field extraction (`Notam.from_api_dict`, lines 565–585)

The regex `Q\)\s*([^)]+?)(?=\s+[A-Z]\)|\s*$)` captures the Q-line body; the
function below models what `from_api_dict` does with the captured group:
`q_parts = captured.strip().split('/')`, then the per-field assignments —
all of which sit under the guard `if len(q_parts) >= 8`. -/

/-- The eight Q-line fields as assigned by `from_api_dict`. -/
structure QFields where
  fir : Option String := none
  q_code : Option String := none
  traffic : Option String := none
  purpose : Option String := none
  scope : Option String := none
  lower_limit : Option Int := none
  upper_limit : Option Int := none
  coordinates : Option String := none
  deriving DecidableEq, Repr

/-- `int(s)` guarded by `s.isdigit()` as in
`int(q_parts[5]) if ... and q_parts[5].isdigit() else None`. -/
def digitFieldToInt (s : String) : Option Int :=
  if pyIsDigit s.data then some (digitsToNat s.data : Int) else none

/-- Field assignment for the captured Q-line group. -/
def parseQFields (captured : String) : QFields :=
  let q_parts := (splitOnCharL '/' (pyStrip captured.data)).map String.mk
  if 8 ≤ q_parts.length then
    { fir := if !(q_parts.getD 0 "").isEmpty then some (q_parts.getD 0 "") else none
      q_code := if 1 < q_parts.length then some (q_parts.getD 1 "") else none
      traffic := if 2 < q_parts.length then some (q_parts.getD 2 "") else none
      purpose :=
        if 3 < q_parts.length && !(q_parts.getD 3 "").isEmpty then
          some (String.mk (pyStrip (q_parts.getD 3 "").data))
        else none
      scope := if 4 < q_parts.length then some (q_parts.getD 4 "") else none
      lower_limit :=
        if 5 < q_parts.length then digitFieldToInt (q_parts.getD 5 "") else none
      upper_limit :=
        if 6 < q_parts.length then digitFieldToInt (q_parts.getD 6 "") else none
      coordinates := if 7 < q_parts.length then some (q_parts.getD 7 "") else none }
  else {}

end NotamSpec
namespace NotamSpec

/-! # Claims -/

/-! ## C1 — priority score rubric -/

/-- Accumulation step `if cond: score += a` expressed as a sum contribution. -/
theorem ite_accum_step (c : Bool) (s a : Int) :
    (if c then s + a else s) = s + (if c then a else 0) := by
  cases c <;> simp

/-- Accumulation step `if cond: score -= a`. -/
theorem ite_accum_step_sub (c : Bool) (s a : Int) :
    (if c then s - a else s) = s + (if c then -a else 0) := by
  cases c <;> simp [sub_eq_add_neg]

/-- The `if/elif` accumulation on the NOTAM kind. -/
theorem ite_accum_step₂ (p q : Prop) [Decidable p] [Decidable q] (s a b : Int) :
    (if p then s + a else if q then s + b else s) =
      s + (if p then a else if q then b else 0) := by
  by_cases hp : p
  · simp [hp]
  · by_cases hq : q <;> simp [hp, hq]

/-- Trigger NOTAM with drone and restriction flags, no closure, kind REPLACE,
no aerodrome scope: the worked example of the scoring rubric. -/
def triggerReplaceNotam : Notam :=
  { notam_id := "R2198/25", series := "R", notam_type := NotamType.REPLACE,
    replaces_notam_id := some "R1978/25",
    body := some "TRIGGER NOTAM - DRONE FLIGHTS REQUIRING THE CREATION OF TEMPORARY RESTRICTED AREAS",
    scope := some "W" }

/-- C1: for every NOTAM record and configuration, `_calculate_priority_score`
equals the additive rubric — `CLOSURE_SCORE` if closure, `DRONE_SCORE` if
drone-related, 10 for kind NEW / 5 for REPLACE / 0 for CANCEL, 10 if the scope
contains `A`, 5 if permanent, −10 if a trigger NOTAM, `RESTRICTION_SCORE` if a
restriction that is not a closure — clamped by `max 0`; hence the score is
never negative; and the trigger NOTAM with restriction and drone flags, no
closure, kind REPLACE and no aerodrome scope scores 45 under the defaults. -/
theorem priority_score_matches_rubric :
    (∀ (cfg : Config) (n : Notam),
      calculatePriorityScore cfg n =
        max 0 ((if is_closure n then cfg.CLOSURE_SCORE else 0)
          + (if is_drone_related cfg n then cfg.DRONE_SCORE else 0)
          + (if n.notam_type = NotamType.NEW then 10
             else if n.notam_type = NotamType.REPLACE then 5 else 0)
          + (if scopeHasA n then 10 else 0)
          + (if n.is_permanent then 5 else 0)
          + (if is_trigger_notam n then -10 else 0)
          + (if is_restriction n && !is_closure n then cfg.RESTRICTION_SCORE else 0))
      ∧ 0 ≤ calculatePriorityScore cfg n)
    ∧ calculatePriorityScore defaultConfig triggerReplaceNotam = 45 := by
  refine ⟨fun cfg n => ⟨?_, ?_⟩, by decide⟩
  · unfold calculatePriorityScore
    simp only [ite_accum_step, ite_accum_step_sub, ite_accum_step₂, zero_add]
  · unfold calculatePriorityScore
    exact le_max_left 0 _

end NotamSpec
namespace NotamSpec

/-! ## C7 — independent Q-code subject/condition lookup -/

/-- C7: for any parsed `q_code` of length at least 5, the decode step looks
letters 2–3 up in the subject table and letters 4–5 up in the independent
condition table, with `"Unknown (XX)"` for a key absent from its table; in
particular `QMRLC` decodes to subject "Runway" and condition "Closed", while
the shared key `LC` means "Runway centre line lights" as a subject but
"Closed" as a condition, and an absent key like `ZY` yields `"Unknown (ZY)"`. -/
theorem q_code_decode_two_tables :
    (∀ q : String, 5 ≤ q.length →
      decodeQCode (some q) =
        (some (dictGet Q_CODE_SUBJECTS (pySliceStr q 1 3)
                ("Unknown (" ++ pySliceStr q 1 3 ++ ")")),
         some (dictGet Q_CODE_CONDITIONS (pySliceStr q 3 5)
                ("Unknown (" ++ pySliceStr q 3 5 ++ ")"))))
    ∧ decodeQCode (some "QMRLC") = (some "Runway", some "Closed")
    ∧ dictGet Q_CODE_SUBJECTS "LC" "-" = "Runway centre line lights"
    ∧ dictGet Q_CODE_CONDITIONS "LC" "-" = "Closed"
    ∧ decodeQCode (some "QZYZY") = (some "Unknown (ZY)", some "Unknown (ZY)") := by
  refine ⟨?_, by decide, by decide, by decide, by decide⟩
  intro q hq
  have hne : q.isEmpty = false := by
    cases h : q.isEmpty
    · rfl
    · exfalso
      have hq0 : q = "" := (String.isEmpty_iff q).mp h
      rw [hq0] at hq
      simp [String.length] at hq
  have hcond : (!q.isEmpty && decide (5 ≤ q.length)) = true := by
    rw [hne]
    simp [hq]
  simp only [decodeQCode, hcond, if_true]

/-- Witness for the general part of `q_code_decode_two_tables`. -/
theorem q_code_decode_two_tables_witness :
    5 ≤ ("QRTAS" : String).length ∧
      decodeQCode (some "QRTAS") =
        (some "Temporary restricted area", some "Unserviceable") := by
  refine ⟨by decide, ?_⟩
  rw [q_code_decode_two_tables.1 "QRTAS" (by decide)]
  decide

end NotamSpec
namespace NotamSpec

/-! ## C9 — drone keyword matching with word boundaries -/

/-- `beginsWith pat s` is exactly "s extends pat". -/
theorem beginsWith_iff (pat : List Char) :
    ∀ s, beginsWith pat s = true ↔ ∃ t, s = pat ++ t := by
  induction pat with
  | nil =>
    intro s
    exact iff_of_true rfl ⟨s, rfl⟩
  | cons p ps ih =>
    intro s
    cases s with
    | nil => simp [beginsWith]
    | cons c cs =>
      simp only [beginsWith, Bool.and_eq_true, beq_iff_eq, ih cs, List.cons_append,
        List.cons.injEq]
      constructor
      · rintro ⟨rfl, t, rfl⟩
        exact ⟨t, rfl, rfl⟩
      · rintro ⟨t, rfl, rfl⟩
        exact ⟨rfl, t, rfl⟩

/-- `wordMatchHere` holds iff the string starts with the keyword and both
boundary checks pass. -/
theorem wordMatchHere_iff (kw : List Char) (prev : Option Char) (s : List Char) :
    wordMatchHere kw prev s = true ↔
      ∃ post, s = kw ++ post ∧ wordness prev ≠ wordness kw.head? ∧
        wordness kw.getLast? ≠ wordness post.head? := by
  unfold wordMatchHere
  simp only [Bool.and_eq_true, beginsWith_iff, bne_iff_ne, ne_eq]
  constructor
  · rintro ⟨⟨⟨post, rfl⟩, h1⟩, h2⟩
    rw [List.drop_left] at h2
    exact ⟨post, rfl, h1, h2⟩
  · rintro ⟨post, rfl, h1, h2⟩
    exact ⟨⟨⟨post, rfl⟩, h1⟩, by rwa [List.drop_left]⟩

/-- `(c :: l).getLast?` with fallback `o` equals `l.getLast?` with fallback `c`. -/
theorem getLast?_cons_or (c : Char) (l : List Char) (o : Option Char) :
    ((c :: l).getLast?).or o = (l.getLast?).or (some c) := by
  cases l with
  | nil => simp [List.getLast?]
  | cons b l' =>
    rw [List.getLast?_cons_cons]
    cases h : (b :: l').getLast? with
    | none => simp [List.getLast?_eq_none_iff] at h
    | some x => simp

/-- The scanning search for `\b kw \b` succeeds from context `prev` iff the
string decomposes around an occurrence of `kw` whose two neighbours pass the
word-boundary test (`prev` supplying the neighbour of a front match). -/
theorem searchWord_iff (kw : List Char) (hk : kw ≠ []) :
    ∀ (s : List Char) (prev : Option Char),
      searchWord kw prev s = true ↔
        ∃ pre post, s = pre ++ kw ++ post ∧
          wordness ((pre.getLast?).or prev) ≠ wordness kw.head? ∧
          wordness kw.getLast? ≠ wordness post.head? := by
  intro s
  induction s with
  | nil =>
    intro prev
    apply iff_of_false
    · rw [show searchWord kw prev [] = false from rfl]
      simp
    · rintro ⟨pre, post, heq, -, -⟩
      rw [eq_comm, List.append_assoc] at heq
      rcases List.append_eq_nil.mp heq with ⟨-, h2⟩
      rcases List.append_eq_nil.mp h2 with ⟨hkw, -⟩
      exact hk hkw
  | cons c rest ih =>
    intro prev
    unfold searchWord
    rw [Bool.or_eq_true, wordMatchHere_iff, ih (some c)]
    constructor
    · rintro (⟨post, heq, h1, h2⟩ | ⟨pre, post, heq, h1, h2⟩)
      · refine ⟨[], post, by simpa using heq, by simpa using h1, h2⟩
      · refine ⟨c :: pre, post, by simp [heq], ?_, h2⟩
        rwa [getLast?_cons_or]
    · rintro ⟨pre, post, heq, h1, h2⟩
      cases pre with
      | nil =>
        left
        exact ⟨post, by simpa using heq, by simpa using h1, h2⟩
      | cons p pre' =>
        right
        obtain ⟨rfl, heq'⟩ : c = p ∧ rest = pre' ++ (kw ++ post) := by
          simpa using heq
        refine ⟨pre', post, by rw [List.append_assoc]; exact heq', ?_, h2⟩
        rwa [getLast?_cons_or] at h1

end NotamSpec
namespace NotamSpec

/-- Specification-side reading of `\b kw \b` matching somewhere in `s`:
`s` splits around an occurrence of `kw` and the word-ness changes across both
edges of the occurrence (positions outside the string count as non-word). -/
def wholeWordOccurs (kw s : List Char) : Prop :=
  ∃ pre post, s = pre ++ kw ++ post ∧
    wordness pre.getLast? ≠ wordness kw.head? ∧
    wordness kw.getLast? ≠ wordness post.head?

/-- A NOTAM whose only interesting field is its body. -/
def bodyOnlyNotam (b : String) : Notam :=
  { notam_id := "T0001/25", series := "T", notam_type := NotamType.NEW,
    body := some b }

/-- C9: `is_drone_related` is true exactly when the lowercased body contains a
configured drone keyword as a whole word at word boundaries; the default
keyword list is {drone, uas, unmanned, rpas}; "UAS SIGHTING" is drone-related
while "causality" (which contains `uas` inside a word) and "MAINTENANCE WORK"
are not. -/
theorem drone_related_iff_whole_word :
    (∀ n : Notam,
      is_drone_related defaultConfig n = true ↔
        ∃ kw ∈ defaultConfig.DRONE_KEYWORDS,
          wholeWordOccurs (lowerL kw.data) (lowerL (n.body.getD "").data))
    ∧ defaultConfig.DRONE_KEYWORDS = ["drone", "uas", "unmanned", "rpas"]
    ∧ is_drone_related defaultConfig (bodyOnlyNotam "UAS SIGHTING") = true
    ∧ is_drone_related defaultConfig (bodyOnlyNotam "causality") = false
    ∧ is_drone_related defaultConfig (bodyOnlyNotam "MAINTENANCE WORK") = false := by
  refine ⟨?_, by decide, by decide, by decide, by decide⟩
  intro n
  have hker : ∀ kw ∈ defaultConfig.DRONE_KEYWORDS, lowerL kw.data ≠ [] := by decide
  have hempty : ∀ kw, kw ∈ defaultConfig.DRONE_KEYWORDS →
      ¬ wholeWordOccurs (lowerL kw.data) (lowerL "".data) := by
    rintro kw hkw ⟨pre, post, heq, -, -⟩
    rw [eq_comm, List.append_assoc] at heq
    rcases List.append_eq_nil.mp heq with ⟨-, h2⟩
    rcases List.append_eq_nil.mp h2 with ⟨hkw0, -⟩
    exact hker kw hkw hkw0
  unfold is_drone_related
  cases hb : n.body with
  | none =>
    simp only [Option.getD_none, Bool.false_eq_true, false_iff, not_exists]
    intro kw hkw
    exact hempty kw hkw.1 hkw.2
  | some b =>
    cases hbe : b.isEmpty with
    | true =>
      have hb0 : b = "" := (String.isEmpty_iff b).mp hbe
      subst hb0
      simp only [hbe, Bool.not_true, Bool.false_and, Option.getD_some,
        Bool.false_eq_true, false_iff, not_exists]
      intro kw hkw
      exact hempty kw hkw.1 hkw.2
    | false =>
      simp only [hbe, Bool.not_false, Bool.true_and, Option.getD_some,
        List.any_eq_true]
      constructor
      · rintro ⟨kw, hkw, hs⟩
        refine ⟨kw, hkw, ?_⟩
        obtain ⟨pre, post, heq, h1, h2⟩ :=
          (searchWord_iff (lowerL kw.data) (hker kw hkw) (lowerL b.data) none).mp hs
        rw [Option.or_none] at h1
        exact ⟨pre, post, heq, h1, h2⟩
      · rintro ⟨kw, hkw, pre, post, heq, h1, h2⟩
        refine ⟨kw, hkw, ?_⟩
        refine (searchWord_iff (lowerL kw.data) (hker kw hkw) (lowerL b.data) none).mpr ?_
        exact ⟨pre, post, heq, by rwa [Option.or_none], h2⟩

end NotamSpec
namespace NotamSpec

/-! ## C8 — Q-line field splitting (corrected)

The source guards the whole per-field assignment block with
`if len(q_parts) >= 8`, so a Q-line that splits into fewer than 8 fields
populates nothing — the claim's "leading fields are still decoded" fails. -/

/-- C8 counterexample: a captured Q-line with five slash-separated fields
leaves every field null; in particular `fir` is not `"EKDK"` as the claim
requires. -/
theorem qline_short_split_counterexample :
    (parseQFields "EKDK/QMRLC/IV/NBO/A").fir = none
    ∧ (parseQFields "EKDK/QMRLC/IV/NBO/A").q_code = none
    ∧ parseQFields "EKDK/QMRLC/IV/NBO/A" = ({} : QFields) := by
  refine ⟨by decide, by decide, by decide⟩

/-- C8 (amended): the captured Q-line string is stripped and split on `/`;
when the split yields fewer than 8 fields every Q-line field is null; when it
yields at least 8 fields each field is decoded with per-field nulls (empty
`fir` or `purpose` → null, non-digit `lower_limit`/`upper_limit` → null) and
the remaining fields are still populated.  The repository's own 8-field
fixture decodes fully, and non-numeric limits null only those two fields. -/
theorem qline_split_fields :
    (∀ captured : String,
      (splitOnCharL '/' (pyStrip captured.data)).length < 8 →
        parseQFields captured = ({} : QFields))
    ∧ parseQFields "EKDK/QMRLC/IV/NBO/A/000/999/5537N01239E005" =
        { fir := some "EKDK", q_code := some "QMRLC", traffic := some "IV",
          purpose := some "NBO", scope := some "A", lower_limit := some 0,
          upper_limit := some 999, coordinates := some "5537N01239E005" }
    ∧ parseQFields "EKDK/QMRLC/IV/NBO/A/GND/UNL/5537N01239E005" =
        { fir := some "EKDK", q_code := some "QMRLC", traffic := some "IV",
          purpose := some "NBO", scope := some "A", lower_limit := none,
          upper_limit := none, coordinates := some "5537N01239E005" } := by
  refine ⟨?_, by decide, by decide⟩
  intro captured hlt
  have hlen : ¬ 8 ≤ ((splitOnCharL '/' (pyStrip captured.data)).map String.mk).length := by
    rw [List.length_map]
    omega
  simp only [parseQFields]
  rw [if_neg hlen]

/-- Witness for the general part of `qline_split_fields`. -/
theorem qline_split_fields_witness :
    (splitOnCharL '/' (pyStrip ("EKDK/QMRLC" : String).data)).length < 8
    ∧ parseQFields "EKDK/QMRLC" = ({} : QFields) :=
  ⟨by decide, qline_split_fields.1 "EKDK/QMRLC" (by decide)⟩

end NotamSpec
namespace NotamSpec

/-! ## C5 — pre-filter on cancelled/expired envelopes -/

/-- C5: an envelope with `cancelledOrExpired` set, or whose status lowercases
to "expired", yields no record from the parse step that feeds the store. -/
theorem parse_skips_cancelled_or_expired (cfg : Config) (env : Envelope)
    (h : env.cancelledOrExpired = true
         ∨ lowerL (env.status.getD "").data = "expired".data) :
    parse_notam cfg env = none := by
  have hcond : (env.cancelledOrExpired
      || (lowerL (env.status.getD "").data == "expired".data)) = true := by
    rcases h with h | h
    · rw [h, Bool.true_or]
    · rw [Bool.or_eq_true]
      exact Or.inr (beq_iff_eq.mpr h)
  simp only [parse_notam]
  rw [if_pos hcond]

/-- The repository's closure fixture with `cancelledOrExpired` flipped on
(as in `test_skip_cancelled_notam`). -/
def cancelledEnvelope : Envelope :=
  { notamNumber := some "A3097/25", facilityDesignator := some "EKCH",
    status := some "Active", cancelledOrExpired := true }

/-- Witness: the cancelled envelope is skipped. -/
theorem parse_skips_cancelled_or_expired_witness :
    (cancelledEnvelope.cancelledOrExpired = true
      ∨ lowerL (cancelledEnvelope.status.getD "").data = "expired".data)
    ∧ parse_notam defaultConfig cancelledEnvelope = none :=
  ⟨Or.inl rfl,
   parse_skips_cancelled_or_expired defaultConfig cancelledEnvelope (Or.inl rfl)⟩

/-! ## C6 — envelope dropping (code bug)

`tests/test_parser.py::test_parse_non_closure_notam` asserts that a
non-closure envelope is still parsed ("they're valuable for search mode"),
and `tests/test_integration.py::test_parse_and_store_workflow` inserts all
three fixtures including the non-closure one.  The shipped
`NotamParser.parse_notam`, however, returns `None` for any envelope whose
text lacks a closure keyword (`if not self._is_closure_notam(...)`), so an
envelope that passes the pre-filter and carries a `notamNumber` is dropped. -/

/-- The non-closure fixture of `test_parse_non_closure_notam`. -/
def nonClosureEnvelope : Envelope :=
  { facilityDesignator := some "EDDF", notamNumber := some "A0003/25",
    airportName := some "FRANKFURT", status := some "Active",
    cancelledOrExpired := false,
    icaoMessage := some "A0003/25 NOTAMN\nE) TAXIWAY LIGHTING UNSERVICEABLE" }

/-- C6 (code bug): the non-closure envelope passes the pre-filter and carries
`notamNumber = "A0003/25"`, yet `parse_notam` emits nothing — contradicting
the claim (and the repository's own test, which expects a record whose id
equals the `notamNumber`). -/
theorem parse_drops_non_closure_envelope :
    nonClosureEnvelope.cancelledOrExpired = false
    ∧ lowerL (nonClosureEnvelope.status.getD "").data ≠ "expired".data
    ∧ nonClosureEnvelope.notamNumber = some "A0003/25"
    ∧ parse_notam defaultConfig nonClosureEnvelope = none := by
  refine ⟨by decide, by decide, by decide, by decide⟩

end NotamSpec
namespace NotamSpec

/-! ## C2 — upsert semantics -/

/-- `cancelMarkRow` never changes `notam_id`, `rowid` or `created_at`. -/
theorem cancelMarkRow_preserves (cid : String) (now : Nat) (r : DBRow) :
    (cancelMarkRow cid now r).notam_id = r.notam_id
    ∧ (cancelMarkRow cid now r).rowid = r.rowid
    ∧ (cancelMarkRow cid now r).created_at = r.created_at := by
  unfold cancelMarkRow
  split <;> exact ⟨rfl, rfl, rfl⟩

/-- The cancel side effect is a row-wise map by a function that preserves
`notam_id`, `rowid` and `created_at`. -/
theorem cancelSideEffect_is_map (rows : List DBRow) (n : Notam) (now : Nat)
    (found : Bool) :
    ∃ g : DBRow → DBRow,
      (∀ r, (g r).notam_id = r.notam_id ∧ (g r).rowid = r.rowid ∧
        (g r).created_at = r.created_at)
      ∧ cancelSideEffect rows n now found = rows.map g := by
  unfold cancelSideEffect
  split
  · cases hc : n.cancels_notam_id with
    | none => exact ⟨id, fun r => ⟨rfl, rfl, rfl⟩, (List.map_id rows).symm⟩
    | some cid => exact ⟨cancelMarkRow cid now, cancelMarkRow_preserves cid now, rfl⟩
  · exact ⟨id, fun r => ⟨rfl, rfl, rfl⟩, (List.map_id rows).symm⟩

/-- With no hit for the incoming id, the side effect does not run. -/
theorem cancelSideEffect_not_found (rows : List DBRow) (n : Notam) (now : Nat) :
    cancelSideEffect rows n now false = rows := by
  unfold cancelSideEffect
  simp

/-- Filtering on `notam_id` commutes with mapping an id-preserving function. -/
theorem filter_byId_map (f : DBRow → DBRow)
    (hf : ∀ r, (f r).notam_id = r.notam_id) (x : String) :
    ∀ l : List DBRow,
      (l.map f).filter (fun r => r.notam_id == x) =
        (l.filter (fun r => r.notam_id == x)).map f := by
  intro l
  induction l with
  | nil => rfl
  | cons a t ih =>
    cases h : (a.notam_id == x) with
    | false => simp [List.filter_cons, hf a, h, ih]
    | true => simp [List.filter_cons, hf a, h, ih]

/-- Under the `UNIQUE (notam_id)` constraint, a successful `SELECT` means the
id filter returns exactly that one row. -/
theorem filter_byId_of_find (x : String) :
    ∀ (l : List DBRow) (row : DBRow),
      (l.map (fun r => r.notam_id)).Nodup →
      l.find? (fun r => r.notam_id == x) = some row →
      l.filter (fun r => r.notam_id == x) = [row] := by
  intro l
  induction l with
  | nil => intro row _ hf; simp at hf
  | cons a t ih =>
    intro row hnd hf
    rw [List.map_cons, List.nodup_cons] at hnd
    cases h : (a.notam_id == x) with
    | true =>
      simp only [List.find?_cons, h] at hf
      rw [Option.some_inj] at hf
      subst hf
      simp only [List.filter_cons, h, if_true]
      have hnil : t.filter (fun r => r.notam_id == x) = [] := by
        rw [List.filter_eq_nil_iff]
        intro r hr hrx
        apply hnd.1
        rw [List.mem_map]
        exact ⟨r, hr, by rw [beq_iff_eq.mp hrx, beq_iff_eq.mp h]⟩
      rw [hnil]
    | false =>
      simp only [List.find?_cons, h] at hf
      simp only [List.filter_cons, h, Bool.false_eq_true, if_false]
      exact ih row hnd.2 hf

/-- C2: upserting an id already present updates that single row in place —
the store keeps exactly one row for the id, every data column is overwritten,
`created_at` is preserved, `updated_at` becomes the current instant — and
returns the existing row id with `was_inserted = false`; upserting an id not
present appends one new row and returns `was_inserted = true`. -/
theorem upsert_notam_semantics (cfg : Config) (st : DBState) (n : Notam)
    (now : Nat) (hnd : (st.rows.map (fun r => r.notam_id)).Nodup) :
    (∀ row, st.rows.find? (fun r => r.notam_id == n.notam_id) = some row →
      (upsert_notam cfg st n now).1 = (some row.rowid, false)
      ∧ (upsert_notam cfg st n now).2.rows.filter
          (fun r => r.notam_id == n.notam_id) =
        [{ rowid := row.rowid, notam_id := row.notam_id,
           data := rowDataOfNotam cfg n, created_at := row.created_at,
           updated_at := now }])
    ∧ (st.rows.find? (fun r => r.notam_id == n.notam_id) = none →
      (upsert_notam cfg st n now).1 = (some st.next_id, true)
      ∧ (upsert_notam cfg st n now).2.rows =
        st.rows ++ [{ rowid := st.next_id, notam_id := n.notam_id,
                      data := rowDataOfNotam cfg n, created_at := now,
                      updated_at := now }]) := by
  constructor
  · intro row hfind
    have hrowid : (row.notam_id == n.notam_id) = true := by
      have h := List.find?_some hfind
      simpa using h
    obtain ⟨g, hg, hmap⟩ :=
      cancelSideEffect_is_map st.rows n now
        (st.rows.find? (fun r => r.notam_id == n.notam_id)).isSome
    rw [hfind] at hmap
    simp only [upsert_notam, hfind]
    refine ⟨trivial, ?_⟩
    rw [hmap,
      filter_byId_map (overwriteRow cfg n now)
        (fun r => by unfold overwriteRow; split <;> rfl) n.notam_id,
      filter_byId_map g (fun r => (hg r).1) n.notam_id,
      filter_byId_of_find n.notam_id st.rows row hnd hfind]
    have hgid : ((g row).notam_id == n.notam_id) = true := by
      rw [(hg row).1]; exact hrowid
    simp only [List.map_cons, List.map_nil]
    unfold overwriteRow
    rw [if_pos hgid]
    have h1 := (hg row).1
    have h2 := (hg row).2.1
    have h3 := (hg row).2.2
    rcases hgr : g row with ⟨grid, gnid, gdata, gcr, gup⟩
    rw [hgr] at h1 h2 h3
    simp only at h1 h2 h3
    rw [h1, h2, h3]
  · intro hfind
    simp only [upsert_notam]
    rw [hfind]
    rw [show (none : Option DBRow).isSome = false from rfl,
      cancelSideEffect_not_found]
    exact ⟨rfl, rfl⟩

end NotamSpec
namespace NotamSpec

/-- The stored version of the repository's closure fixture. -/
def wOldNotam : Notam :=
  { notam_id := "A3097/25", series := "A", notam_type := NotamType.NEW,
    airport_code := some "EKCH",
    body := some "RWY 12/30 CLSD FOR TKOF AND LDG DUE TO WIP." }

/-- A re-ingested version of the same NOTAM with a changed airport name. -/
def wNewNotam : Notam :=
  { notam_id := "A3097/25", series := "A", notam_type := NotamType.NEW,
    airport_code := some "EKCH", airport_name := some "UPDATED NAME",
    body := some "RWY 12/30 CLSD FOR TKOF AND LDG DUE TO WIP." }

/-- The pre-existing row holding `wOldNotam`, created at instant 3. -/
def wRow : DBRow :=
  { rowid := 1, notam_id := "A3097/25",
    data := rowDataOfNotam defaultConfig wOldNotam, created_at := 3, updated_at := 3 }

/-- A store containing exactly `wRow`. -/
def wState : DBState := { rows := [wRow], next_id := 2 }

/-- Witness for `upsert_notam_semantics`: re-ingesting `A3097/25` at instant 7
keeps one row, preserves `created_at = 3`, overwrites the data columns and
returns `(1, was_inserted := false)`. -/
theorem upsert_notam_semantics_witness :
    (wState.rows.map (fun r => r.notam_id)).Nodup
    ∧ wState.rows.find? (fun r => r.notam_id == wNewNotam.notam_id) = some wRow
    ∧ (upsert_notam defaultConfig wState wNewNotam 7).1 = (some wRow.rowid, false)
    ∧ (upsert_notam defaultConfig wState wNewNotam 7).2.rows.filter
        (fun r => r.notam_id == wNewNotam.notam_id) =
      [{ rowid := wRow.rowid, notam_id := wRow.notam_id,
         data := rowDataOfNotam defaultConfig wNewNotam,
         created_at := wRow.created_at, updated_at := 7 }] := by
  refine ⟨by decide, by decide, ?_, ?_⟩
  · exact ((upsert_notam_semantics defaultConfig wState wNewNotam 7
      (by decide)).1 wRow (by decide)).1
  · exact ((upsert_notam_semantics defaultConfig wState wNewNotam 7
      (by decide)).1 wRow (by decide)).2

end NotamSpec
namespace NotamSpec

/-! ## C3 — NOTAMC side effect (corrected)

In the source the block that marks the referenced record cancelled is guarded
by `if notam.notam_type == NotamType.CANCEL and existing:` — `existing` being
the lookup of the *incoming* NOTAM's own id.  A CANCEL whose own id is new to
the store therefore leaves the referenced record untouched, contrary to the
claim's "regardless of whether the incoming CANCEL NOTAM's own id was already
present". -/

/-- A stored NEW notam that a later CANCEL refers to. -/
def targetNotam : Notam :=
  { notam_id := "A1000/25", series := "A", notam_type := NotamType.NEW,
    body := some "RWY 09/27 WORK IN PROGRESS" }

/-- The stored row for `targetNotam`. -/
def targetRow : DBRow :=
  { rowid := 1, notam_id := "A1000/25",
    data := rowDataOfNotam defaultConfig targetNotam, created_at := 3,
    updated_at := 3 }

/-- An incoming CANCEL NOTAM, not itself in the store, cancelling `A1000/25`. -/
def freshCancelNotam : Notam :=
  { notam_id := "C0001/25", series := "C", notam_type := NotamType.CANCEL,
    cancels_notam_id := some "A1000/25" }

/-- C3 counterexample: upserting the fresh CANCEL (own id absent from the
store) leaves the referenced record's `notam_type` at `"NEW"` — the claimed
unconditional overwrite to `"CANCEL"` does not happen. -/
theorem cancel_side_effect_counterexample :
    ((upsert_notam defaultConfig { rows := [targetRow], next_id := 2 }
        freshCancelNotam 9).2.rows.find?
          (fun r => r.notam_id == "A1000/25")).map (fun r => r.data.notam_type)
      = some "NEW"
    ∧ (upsert_notam defaultConfig { rows := [targetRow], next_id := 2 }
        freshCancelNotam 9).1 = (some 2, true) := by
  refine ⟨by decide, by decide⟩

/-- C3 (amended): when the incoming NOTAM has kind CANCEL with
`cancels_notam_id` set **and its own id is already present in the store**,
the upsert overwrites the referenced record's `notam_type` to `"CANCEL"` and
touches its `updated_at`; the primary upsert still completes normally,
returning the existing row id with `was_inserted = false`.  (When the
referenced id is absent the side effect silently does nothing.) -/
theorem cancel_side_effect_when_own_id_exists (cfg : Config) (st : DBState)
    (n : Notam) (now : Nat) (cid : String) (row0 : DBRow)
    (htype : n.notam_type = NotamType.CANCEL)
    (hcid : n.cancels_notam_id = some cid)
    (hfind : st.rows.find? (fun r => r.notam_id == n.notam_id) = some row0) :
    (upsert_notam cfg st n now).1 = (some row0.rowid, false)
    ∧ ∀ r ∈ (upsert_notam cfg st n now).2.rows,
        r.notam_id = cid → r.data.notam_type = "CANCEL" ∧ r.updated_at = now := by
  have hside : cancelSideEffect st.rows n now
      (st.rows.find? (fun r => r.notam_id == n.notam_id)).isSome =
      st.rows.map (cancelMarkRow cid now) := by
    unfold cancelSideEffect
    rw [htype, hcid, hfind]
    simp
  simp only [upsert_notam, hfind] at hside ⊢
  rw [hside]
  refine ⟨trivial, ?_⟩
  intro r hr hrid
  rw [List.map_map] at hr
  obtain ⟨r0, hr0, rfl⟩ := List.mem_map.mp hr
  simp only [Function.comp_apply] at hrid ⊢
  by_cases hcase : ((cancelMarkRow cid now r0).notam_id == n.notam_id) = true
  · unfold overwriteRow
    rw [if_pos hcase]
    constructor
    · show (rowDataOfNotam cfg n).notam_type = "CANCEL"
      rw [show (rowDataOfNotam cfg n).notam_type = notamTypeStr n.notam_type from rfl,
        htype]
      rfl
    · rfl
  · unfold overwriteRow at hrid ⊢
    rw [if_neg hcase] at hrid ⊢
    have hr0id : r0.notam_id = cid := by
      rw [← (cancelMarkRow_preserves cid now r0).1]
      exact hrid
    have hr0cond : (r0.notam_id == cid) = true := beq_iff_eq.mpr hr0id
    unfold cancelMarkRow
    rw [if_pos hr0cond]
    exact ⟨rfl, rfl⟩

/-- A CANCEL NOTAM whose own id is already present in the store. -/
def storedCancelNotam : Notam :=
  { notam_id := "C0001/25", series := "C", notam_type := NotamType.CANCEL,
    cancels_notam_id := some "A1000/25" }

/-- The stored row for `storedCancelNotam` (a previous ingestion of it). -/
def cancelRow : DBRow :=
  { rowid := 2, notam_id := "C0001/25",
    data := rowDataOfNotam defaultConfig storedCancelNotam, created_at := 4,
    updated_at := 4 }

/-- A store holding both the target and the CANCEL's own earlier row. -/
def storedCancelState : DBState := { rows := [targetRow, cancelRow], next_id := 3 }

/-- Witness for `cancel_side_effect_when_own_id_exists`: re-ingesting a CANCEL
whose own id is already stored marks the referenced row `A1000/25` cancelled. -/
theorem cancel_side_effect_when_own_id_exists_witness :
    (storedCancelState.rows.find?
        (fun r => r.notam_id == storedCancelNotam.notam_id) = some cancelRow)
    ∧ (upsert_notam defaultConfig storedCancelState storedCancelNotam 9).1 =
        (some cancelRow.rowid, false)
    ∧ ∀ r ∈ (upsert_notam defaultConfig storedCancelState storedCancelNotam
          9).2.rows,
        r.notam_id = "A1000/25" → r.data.notam_type = "CANCEL" ∧ r.updated_at = 9 := by
  refine ⟨by decide, ?_, ?_⟩
  · exact (cancel_side_effect_when_own_id_exists defaultConfig storedCancelState
      storedCancelNotam 9 "A1000/25" cancelRow rfl rfl (by decide)).1
  · exact (cancel_side_effect_when_own_id_exists defaultConfig storedCancelState
      storedCancelNotam 9 "A1000/25" cancelRow rfl rfl (by decide)).2

end NotamSpec
namespace NotamSpec

/-! ## C4 — cross-target deduplication (code bug)

`FreeTextNotamClient.fetch_all_notams` initialises `seen_ids` but never reads
it: each term's results are deduplicated only inside `search_term`, and the
per-term lists are concatenated.  A NOTAM returned by two different search
terms therefore appears twice in one invocation's result, although the log
line printed there announces "unique NOTAMs across all search terms" and the
specification requires one seen-id set across all targets.
(`FAANotamClient.fetch_all_notams`, by contrast, does share one set across
all airports.) -/

/-- The same NOTAM as returned by two different search terms. -/
def dupRecord : RawRec := { notamNumber := some "A0001/25", payload := 1 }

/-- C4 (code bug evaluation): with two search terms both returning
`A0001/25`, the free-text fetcher's result contains that id twice — the
claimed cross-target deduplication does not happen — while the airport-mode
fetcher on the same responses returns it once. -/
theorem freetext_fetch_keeps_cross_term_duplicates :
    (freeTextFetchAllNotams ["drone", "uas"] (fun _ => [[dupRecord]])).map
        (fun r => r.notamNumber)
      = [some "A0001/25", some "A0001/25"]
    ∧ ¬ ((freeTextFetchAllNotams ["drone", "uas"] (fun _ => [[dupRecord]])).map
        (fun r => r.notamNumber)).Nodup
    ∧ (faaFetchAllNotams ["EKCH", "EGLL"] (fun _ => [dupRecord])).map
        (fun r => r.notamNumber)
      = [some "A0001/25"] := by
  refine ⟨by decide, by decide, by decide⟩

/-! ## C10 — empty digest flush -/

/-- C10: flushing an empty digest accumulator — including the forced
`send_immediate` flush on shutdown — returns `False`, issues no HTTP request
and leaves the accumulator untouched; and any flush that does issue a request
started from a non-empty accumulator. -/
theorem empty_digest_flush_is_noop (cfg : Config) (st : DigestState)
    (postOk : Bool) (h : st.notams = []) :
    sendDigest cfg st postOk = (false, st, none)
    ∧ sendImmediate cfg st postOk = (false, st, none)
    ∧ ∀ (st' : DigestState) (p : Bool),
        (sendDigest cfg st' p).2.2 ≠ none → st'.notams ≠ [] := by
  have hmain : sendDigest cfg st postOk = (false, st, none) := by
    unfold sendDigest
    rw [h]
    rfl
  refine ⟨hmain, hmain, ?_⟩
  intro st' p hreq hnil
  apply hreq
  unfold sendDigest
  rw [hnil]
  rfl

/-- The freshly initialised accumulator. -/
def emptyDigestState : DigestState :=
  { notams := [], stats_total := 0, stats_closures := 0, stats_drone := 0,
    stats_restrictions := 0, airports := [] }

/-- Witness for `empty_digest_flush_is_noop` at the initial accumulator. -/
theorem empty_digest_flush_is_noop_witness :
    emptyDigestState.notams = []
    ∧ sendDigest defaultConfig emptyDigestState true =
        (false, emptyDigestState, none)
    ∧ sendImmediate defaultConfig emptyDigestState true =
        (false, emptyDigestState, none) :=
  ⟨rfl,
   (empty_digest_flush_is_noop defaultConfig emptyDigestState true rfl).1,
   (empty_digest_flush_is_noop defaultConfig emptyDigestState true rfl).2.1⟩

end NotamSpec
